import Mathlib

/-!
Verification development for the F1 telemetry repository
(hgrafa/telemetry-formula1).

The development shallowly embeds the decoding, aggregation, recording and
replay logic of the repository:

* src/f1-udp-reciever/telemetry.js — header and body decoders, the
  per-car drivers table, the UDP message handler;
* src/test-connection.js — the event-service header path (F1UDPService);
* src/f1-udp-reciever/f1-packages.js — the capture recorder state machine;
* src/f1-udp-reciever/replay-data.js — the capture replay engine.

Modelling conventions:

* A Node `Buffer` is a `Buf`: a byte function together with a size.
  All JS offsets at the call sites in this program are non-negative,
  so offsets are `Nat` and the JS guards `offset < 0` are vacuous.
* Unchecked Node reads (`readInt8`, `readUInt32LE`, ...) throw a
  `RangeError` when they would run past the buffer; they are embedded as
  `Option`-valued reads, and a decoder that may perform one is
  `Option`-valued (`none` models the thrown exception reaching the
  caller's catch block).
* 32-bit float fields (`readFloatLE`) are represented by their raw
  little-endian 32-bit pattern; the default value 0.0 substituted by the
  safe accessor has pattern 0.  No claim in scope inspects a decoded
  float value or its string rendering (`toFixed`), only the patterns are
  threaded through.
* Driver names produced by `buffer.toString('utf8')` are kept as raw
  byte lists (nulls stripped, surrounding whitespace trimmed), since no
  claim in scope inspects name contents.
-/

/-- A Node.js `Buffer`: byte contents as a function from index to byte
value, together with its length. -/
structure Buf where
  data : Nat → Nat
  size : Nat

/-- Unchecked in-bounds byte read (callers establish bounds). -/
def readU8 (b : Buf) (o : Nat) : Nat := b.data o

/-- Little-endian 16-bit value from two in-bounds bytes. -/
def readU16 (b : Buf) (o : Nat) : Nat :=
  b.data o + 256 * b.data (o + 1)

/-- Little-endian 32-bit value from four in-bounds bytes. -/
def readU32 (b : Buf) (o : Nat) : Nat :=
  b.data o + 256 * b.data (o + 1) + 65536 * b.data (o + 2) +
    16777216 * b.data (o + 3)

/-- Little-endian 64-bit value from eight in-bounds bytes
(`readBigUInt64LE`). -/
def readU64 (b : Buf) (o : Nat) : Nat :=
  readU32 b o + 4294967296 * readU32 b (o + 4)

/-- Two's-complement interpretation of one byte (`readInt8`). -/
def toInt8 (byte : Nat) : Int :=
  if byte < 128 then (byte : Int) else (byte : Int) - 256

/-- Node `buffer.readInt8(o)`: throws (`none`) when the read exceeds the
buffer. -/
def readInt8? (b : Buf) (o : Nat) : Option Int :=
  if o + 1 ≤ b.size then some (toInt8 (b.data o)) else none

/-- Node `buffer.readUInt32LE(o)`: throws (`none`) when the read exceeds
the buffer. -/
def readUInt32LE? (b : Buf) (o : Nat) : Option Nat :=
  if o + 4 ≤ b.size then some (readU32 b o) else none

/-- Bounds-checked byte read from telemetry.js `safeReadUInt8`:
out-of-range reads return 0. -/
def safeReadUInt8 (b : Buf) (o : Nat) : Nat :=
  if o ≥ b.size then 0 else readU8 b o

/-- Bounds-checked 16-bit read from telemetry.js `safeReadUInt16LE`:
out-of-range reads return 0. -/
def safeReadUInt16LE (b : Buf) (o : Nat) : Nat :=
  if o + 1 ≥ b.size then 0 else readU16 b o

/-- Bounds-checked float read from telemetry.js `safeReadFloatLE`,
represented by the 32-bit pattern; out-of-range reads return 0.0,
whose pattern is 0. -/
def safeReadFloatLE (b : Buf) (o : Nat) : Nat :=
  if o + 3 ≥ b.size then 0 else readU32 b o

/-- Whitespace bytes removed by JS `String.prototype.trim` (ASCII
subset relevant to byte buffers). -/
def isWsByte (c : Nat) : Bool :=
  c = 32 || c = 9 || c = 10 || c = 13 || c = 11 || c = 12

/-- Trim leading and trailing whitespace bytes. -/
def trimBytes (l : List Nat) : List Nat :=
  ((l.dropWhile isWsByte).reverse.dropWhile isWsByte).reverse

/-- Bounds-checked string read from telemetry.js `safeReadString`:
out-of-range reads return the empty string; in-range reads strip null
bytes and trim surrounding whitespace.  The string is kept as its byte
list. -/
def safeReadStringBytes (b : Buf) (o len : Nat) : List Nat :=
  if o + len > b.size then []
  else trimBytes (((List.range len).map (fun k => b.data (o + k))).filter
    (fun c => c ≠ 0))

/-- Packet header decoded by telemetry.js `parseHeader` and
test-connection.js `_parsePacketHeader` (both read the identical
29-byte envelope).  `sessionTime` is the raw f32 pattern. -/
structure PacketHeader where
  packetFormat : Nat
  gameYear : Nat
  gameMajorVersion : Nat
  gameMinorVersion : Nat
  packetVersion : Nat
  packetId : Nat
  sessionUID : Nat
  sessionTime : Nat
  frameIdentifier : Nat
  overallFrameIdentifier : Nat
  playerCarIndex : Nat
  secondaryPlayerCarIndex : Nat
deriving DecidableEq

/-- telemetry.js `parseHeader`: fails only when the buffer is shorter
than 29 bytes; every fixed-offset read is then in bounds, so the
try/catch never fires. -/
def parseHeader (b : Buf) : Option PacketHeader :=
  if b.size < 29 then none
  else some {
    packetFormat := readU16 b 0
    gameYear := readU8 b 2
    gameMajorVersion := readU8 b 3
    gameMinorVersion := readU8 b 4
    packetVersion := readU8 b 5
    packetId := readU8 b 6
    sessionUID := readU64 b 7
    sessionTime := readU32 b 15
    frameIdentifier := readU32 b 19
    overallFrameIdentifier := readU32 b 23
    playerCarIndex := readU8 b 27
    secondaryPlayerCarIndex := readU8 b 28 }

/-- Enumeration lookup telemetry.js `getWeatherString`; JS
`types[weather] || 'Unknown'` (no entry is a falsy string). -/
def getWeatherString (w : Nat) : String :=
  ["Clear", "Light Cloud", "Overcast", "Light Rain", "Heavy Rain",
    "Storm"].getD w "Unknown"

/-- Enumeration lookup telemetry.js `getSessionTypeString`. -/
def getSessionTypeString (t : Nat) : String :=
  ["Unknown", "FP1", "FP2", "FP3", "Short FP", "Q1", "Q2", "Q3",
    "Short Q", "OSQ", "R", "Sprint Shootout 1", "Sprint Shootout 2",
    "Sprint Shootout 3", "Short Sprint Shootout", "R2", "R3",
    "Time Trial"].getD t "Unknown"

/-- Enumeration lookup telemetry.js `getTyreCompoundString` (object
keyed 7..21); a missing key yields `undefined || 'Unknown'`. -/
def getTyreCompoundString (c : Nat) : String :=
  if c = 16 then "C5" else if c = 17 then "C4" else
  if c = 18 then "C3" else if c = 19 then "C2" else
  if c = 20 then "C1" else if c = 21 then "C0" else
  if c = 7 then "Inter" else if c = 8 then "Wet" else
  if c = 9 then "Dry" else if c = 10 then "Wet" else
  if c = 11 then "Super Soft" else if c = 12 then "Soft" else
  if c = 13 then "Medium" else if c = 14 then "Hard" else
  if c = 15 then "Wet" else "Unknown"

/-- Enumeration lookup telemetry.js `getPitStatusString`. -/
def getPitStatusString (s : Nat) : String :=
  ["None", "Pitting", "In Pit"].getD s "Unknown"

/-- Enumeration lookup telemetry.js `getDriverStatusString`. -/
def getDriverStatusString (s : Nat) : String :=
  ["In Garage", "Flying Lap", "In Lap", "Out Lap", "On Track"].getD s
    "Unknown"

/-- Enumeration lookup telemetry.js `getERSModeString`. -/
def getERSModeString (m : Nat) : String :=
  ["None", "Medium", "Hotlap", "Overtake"].getD m "Unknown"

/-- Enumeration lookup telemetry.js `getFlagString` (object keyed
-1..4); a missing key yields `undefined || 'None'`. -/
def getFlagString (f : Int) : String :=
  if f = -1 then "Invalid" else if f = 0 then "None" else
  if f = 1 then "Green" else if f = 2 then "Blue" else
  if f = 3 then "Yellow" else if f = 4 then "Red" else "None"

/-- Two-digit zero padding (JS `padStart(2, '0')`). -/
def pad2 (n : Nat) : String :=
  if n < 10 then "0" ++ toString n else toString n

/-- Three-digit zero padding (JS `padStart(3, '0')`). -/
def pad3 (n : Nat) : String :=
  if n < 10 then "00" ++ toString n
  else if n < 100 then "0" ++ toString n else toString n

/-- Lap time formatting telemetry.js `formatTime` (the `!milliseconds`
JS test coincides with `= 0` on naturals). -/
def formatTime (ms : Nat) : String :=
  if ms = 0 ∨ ms > 999999999 then "--:--"
  else toString (ms / 60000) ++ ":" ++ pad2 (ms % 60000 / 1000) ++ "." ++
    pad3 (ms % 1000)

/-- Gear display value: JS stores the string 'R' for -1, 'N' for 0, and
the number itself otherwise. -/
inductive GearDisplay where
  | R : GearDisplay
  | N : GearDisplay
  | num : Int → GearDisplay
deriving DecidableEq

/-- Per-car telemetry sub-record written by `parseCarTelemetry`.
`throttleBits`/`brakeBits` keep the raw f32 patterns (the JS
`(x*100).toFixed(1)` display conversion is not interpreted). -/
structure TelemetryRec where
  speed : Nat
  throttleBits : Nat
  brakeBits : Nat
  gear : GearDisplay
  engineRPM : Nat
  drs : String
  engineTemp : Nat
  tyreTemp : Nat
  brakeTemp : Nat
deriving DecidableEq

/-- Per-car lap sub-record written by `parseLapData`. -/
structure LapRec where
  position : Nat
  currentLap : Nat
  lastLapTime : String
  currentLapTime : String
  pitStatus : String
  penalties : Nat
  warnings : Nat
  driverStatus : String
deriving DecidableEq

/-- Per-car status sub-record written by `parseCarStatus`; float fields
keep their raw f32 patterns. -/
structure CarStatusRec where
  fuelBits : Nat
  fuelLapsBits : Nat
  tyreCompound : String
  tyreAge : Nat
  ersEnergyBits : Nat
  ersMode : String
  flags : String
deriving DecidableEq

/-- One entry of the telemetry.js `drivers` map: a JS object whose
fields are filled in by the different decoders (absent = `none`). -/
structure DriverEntry where
  name : Option (List Nat) := none
  raceNumber : Option Nat := none
  teamId : Option Nat := none
  isPlayer : Option Bool := none
  isAI : Option Bool := none
  telemetry : Option TelemetryRec := none
  lapData : Option LapRec := none
  carStatus : Option CarStatusRec := none
deriving DecidableEq

/-- The Entity State Table: telemetry.js `drivers`, a map from car slot
index to driver entry. -/
abbrev Drivers := Nat → Option DriverEntry

/-- Rounded mean of four naturals: JS `Math.round((a+b+c+d)/4)` with
half-up rounding equals `(sum+2)/4` in natural division. -/
def roundMean4 (a b c d : Nat) : Nat := (a + b + c + d + 2) / 4

/-- Update one slot of the drivers map in place (JS mutates the object
returned by `drivers.get(i)`). -/
def updateDriver (st : Drivers) (i : Nat) (f : DriverEntry → DriverEntry) :
    Drivers :=
  fun j => if j = i then (st j).map f else st j

/-- Loop body of telemetry.js `parseCarTelemetry` for car slot `i` at
record offset `offset`.  The `gear` read is an unguarded `readInt8` (the
surrounding ternary only tests that the method exists); all other reads
use the safe accessors.  The decoded record is written only when slot
`i` is already present in the drivers map. -/
def telemetryStep (b : Buf) (offset : Nat) (st : Drivers) (i : Nat) :
    Option Drivers := do
  let speed := safeReadUInt16LE b offset
  let throttle := safeReadFloatLE b (offset + 2)
  let _steer := safeReadFloatLE b (offset + 6)
  let brake := safeReadFloatLE b (offset + 10)
  let _clutch := safeReadUInt8 b (offset + 14)
  let gear ← readInt8? b (offset + 15)
  let engineRPM := safeReadUInt16LE b (offset + 16)
  let drs := safeReadUInt8 b (offset + 18)
  let brakesTemp0 := safeReadUInt16LE b (offset + 22)
  let brakesTemp1 := safeReadUInt16LE b (offset + 24)
  let brakesTemp2 := safeReadUInt16LE b (offset + 26)
  let brakesTemp3 := safeReadUInt16LE b (offset + 28)
  let tyresSurfaceTemp0 := safeReadUInt8 b (offset + 30)
  let tyresSurfaceTemp1 := safeReadUInt8 b (offset + 31)
  let tyresSurfaceTemp2 := safeReadUInt8 b (offset + 32)
  let tyresSurfaceTemp3 := safeReadUInt8 b (offset + 33)
  let engineTemp := safeReadUInt16LE b (offset + 38)
  let rec' : TelemetryRec := {
    speed := speed
    throttleBits := throttle
    brakeBits := brake
    gear := if gear = -1 then .R else if gear = 0 then .N else .num gear
    engineRPM := engineRPM
    drs := if drs = 1 then "ON" else "OFF"
    engineTemp := engineTemp
    tyreTemp := roundMean4 tyresSurfaceTemp0 tyresSurfaceTemp1
      tyresSurfaceTemp2 tyresSurfaceTemp3
    brakeTemp := roundMean4 brakesTemp0 brakesTemp1 brakesTemp2
      brakesTemp3 }
  pure (if (st i).isSome then
    updateDriver st i (fun d => { d with telemetry := some rec' }) else st)

/-- Per-car loop of `parseCarTelemetry`: stride 60 from base offset 29,
breaking without error when the next record would exceed the buffer.
The structural `fuel` argument bounds the iteration count; called with
fuel 22 it performs exactly the source's 22-iteration loop (the
`i < 22` test is the loop condition from the source). -/
def telemetryLoop (b : Buf) : Nat → Nat → Nat → Drivers → Option Drivers
  | 0, _, _, st => some st
  | fuel + 1, i, offset, st =>
    if i < 22 then
      if offset + 60 > b.size then some st
      else do
        let st' ← telemetryStep b offset st i
        telemetryLoop b fuel (i + 1) (offset + 60) st'
    else some st

/-- telemetry.js `parseCarTelemetry`: drops the packet silently when the
header is invalid or the buffer is under the 1352-byte minimum;
otherwise iterates the 22 car records. -/
def parseCarTelemetry (b : Buf) (st : Drivers) : Option Drivers :=
  match parseHeader b with
  | none => some st
  | some _ => if b.size < 1352 then some st else telemetryLoop b 22 0 29 st

/-- Loop body of telemetry.js `parseLapData` for car slot `i`.  The two
lap-time reads are unguarded `readUInt32LE` calls. -/
def lapDataStep (b : Buf) (offset : Nat) (st : Drivers) (i : Nat) :
    Option Drivers := do
  let lastLapTimeMs ← readUInt32LE? b offset
  let currentLapTimeMs ← readUInt32LE? b (offset + 4)
  let carPosition := safeReadUInt8 b (offset + 32)
  let currentLapNum := safeReadUInt8 b (offset + 33)
  let pitStatus := safeReadUInt8 b (offset + 34)
  let penalties := safeReadUInt8 b (offset + 38)
  let totalWarnings := safeReadUInt8 b (offset + 39)
  let driverStatus := safeReadUInt8 b (offset + 44)
  let rec' : LapRec := {
    position := carPosition
    currentLap := currentLapNum
    lastLapTime := formatTime lastLapTimeMs
    currentLapTime := formatTime currentLapTimeMs
    pitStatus := getPitStatusString pitStatus
    penalties := penalties
    warnings := totalWarnings
    driverStatus := getDriverStatusString driverStatus }
  pure (if (st i).isSome then
    updateDriver st i (fun d => { d with lapData := some rec' }) else st)

/-- Per-car loop of `parseLapData`: stride 50 from base offset 29,
with a structural fuel bound called at 22. -/
def lapDataLoop (b : Buf) : Nat → Nat → Nat → Drivers → Option Drivers
  | 0, _, _, st => some st
  | fuel + 1, i, offset, st =>
    if i < 22 then
      if offset + 50 > b.size then some st
      else do
        let st' ← lapDataStep b offset st i
        lapDataLoop b fuel (i + 1) (offset + 50) st'
    else some st

/-- telemetry.js `parseLapData`: silent drop below the 1131-byte
minimum. -/
def parseLapData (b : Buf) (st : Drivers) : Option Drivers :=
  match parseHeader b with
  | none => some st
  | some _ => if b.size < 1131 then some st else lapDataLoop b 22 0 29 st

/-- Loop body of telemetry.js `parseCarStatus` for car slot `i`.  The
FIA-flags read is an unguarded `readInt8`. -/
def carStatusStep (b : Buf) (offset : Nat) (st : Drivers) (i : Nat) :
    Option Drivers := do
  let fuelInTank := safeReadFloatLE b (offset + 5)
  let _fuelCapacity := safeReadFloatLE b (offset + 9)
  let fuelRemainingLaps := safeReadFloatLE b (offset + 13)
  let actualTyreCompound := safeReadUInt8 b (offset + 25)
  let tyresAgeLaps := safeReadUInt8 b (offset + 27)
  let vehicleFiaFlags ← readInt8? b (offset + 28)
  let ersStoreEnergy := safeReadFloatLE b (offset + 37)
  let ersDeployMode := safeReadUInt8 b (offset + 41)
  let rec' : CarStatusRec := {
    fuelBits := fuelInTank
    fuelLapsBits := fuelRemainingLaps
    tyreCompound := getTyreCompoundString actualTyreCompound
    tyreAge := tyresAgeLaps
    ersEnergyBits := ersStoreEnergy
    ersMode := getERSModeString ersDeployMode
    flags := getFlagString vehicleFiaFlags }
  pure (if (st i).isSome then
    updateDriver st i (fun d => { d with carStatus := some rec' }) else st)

/-- Per-car loop of `parseCarStatus`: stride 55 from base offset 29,
with a structural fuel bound called at 22. -/
def carStatusLoop (b : Buf) : Nat → Nat → Nat → Drivers → Option Drivers
  | 0, _, _, st => some st
  | fuel + 1, i, offset, st =>
    if i < 22 then
      if offset + 55 > b.size then some st
      else do
        let st' ← carStatusStep b offset st i
        carStatusLoop b fuel (i + 1) (offset + 55) st'
    else some st

/-- telemetry.js `parseCarStatus`: silent drop below the 1239-byte
minimum. -/
def parseCarStatus (b : Buf) (st : Drivers) : Option Drivers :=
  match parseHeader b with
  | none => some st
  | some _ => if b.size < 1239 then some st else carStatusLoop b 22 0 29 st

/-- Fallback name produced by JS template literal `Driver ${i+1}` when
the decoded name is the empty (falsy) string, as UTF-8 bytes. -/
def defaultNameBytes (i : Nat) : List Nat :=
  [68, 114, 105, 118, 101, 114, 32] ++
    ((Nat.toDigits 10 (i + 1)).map Char.toNat)

/-- Loop body of telemetry.js `parseParticipants` for car slot `i`:
creates the slot entry when absent, then fills the identity fields.
All reads are safe accessors. -/
def participantsStep (b : Buf) (playerCarIndex offset : Nat)
    (st : Drivers) (i : Nat) : Drivers :=
  let aiControlled := safeReadUInt8 b offset = 1
  let _driverId := safeReadUInt8 b (offset + 1)
  let _networkId := safeReadUInt8 b (offset + 2)
  let teamId := safeReadUInt8 b (offset + 3)
  let _myTeam := safeReadUInt8 b (offset + 4) = 1
  let raceNumber := safeReadUInt8 b (offset + 5)
  let _nationality := safeReadUInt8 b (offset + 6)
  let nameBytes := safeReadStringBytes b (offset + 7) 48
  let name := if nameBytes = [] then defaultNameBytes i else nameBytes
  let _yourTelemetry := safeReadUInt8 b (offset + 55)
  let _showOnlineNames := safeReadUInt8 b (offset + 56) = 1
  let _platform := safeReadUInt8 b (offset + 57)
  let base := (st i).getD {}
  let entry := { base with
    name := some name
    raceNumber := some raceNumber
    teamId := some teamId
    isPlayer := some (i = playerCarIndex)
    isAI := some aiControlled }
  fun j => if j = i then some entry else st j

/-- Per-car loop of `parseParticipants`: stride 58 from offset 30, over
`min(numActiveCars, 22)` cars, with a structural fuel bound called at
22 (≥ `actual`). -/
def participantsLoop (b : Buf) (playerCarIndex actual : Nat) :
    Nat → Nat → Nat → Drivers → Drivers
  | 0, _, _, st => st
  | fuel + 1, i, offset, st =>
    if i < actual then
      if offset + 58 > b.size then st
      else
        participantsLoop b playerCarIndex actual fuel (i + 1) (offset + 58)
          (participantsStep b playerCarIndex offset st i)
    else st

/-- telemetry.js `parseParticipants`: below the 1306-byte minimum the
packet is dropped (with a console warning); otherwise the active-car
count is read at offset 29 and the records start at offset 30. -/
def parseParticipants (b : Buf) (st : Drivers) : Drivers :=
  match parseHeader b with
  | none => st
  | some h =>
    if b.size < 1306 then st
    else
      let numActiveCars := safeReadUInt8 b 29
      let actualCars := min numActiveCars 22
      participantsLoop b h.playerCarIndex actualCars 22 0 30 st

/-- Process-wide session record telemetry.js `sessionInfo`.  `trackId`
is absent from the initial JS object and first assigned by
`parseSession`; it is modelled as a field initialised to 0. -/
structure SessionInfo where
  trackName : String
  sessionType : String
  weather : String
  trackTemp : Int
  airTemp : Int
  totalLaps : Nat
  trackId : Int
deriving DecidableEq

/-- Initial value of telemetry.js `sessionInfo`. -/
def initSessionInfo : SessionInfo :=
  { trackName := "", sessionType := "", weather := "", trackTemp := 0,
    airTemp := 0, totalLaps := 0, trackId := 0 }

/-- telemetry.js `parseSession`: silent drop (with console warning)
below the 644-byte minimum; the temperature and track-id reads are
unguarded `readInt8` calls; `trackLength` is read but never stored. -/
def parseSession (b : Buf) (si : SessionInfo) : Option SessionInfo :=
  match parseHeader b with
  | none => some si
  | some _ =>
    if b.size < 644 then some si
    else do
      let weather := safeReadUInt8 b 29
      let trackTemp ← readInt8? b 30
      let airTemp ← readInt8? b 31
      let totalLaps := safeReadUInt8 b 32
      let _trackLength := safeReadUInt16LE b 33
      let sessionType := safeReadUInt8 b 35
      let trackId ← readInt8? b 36
      pure { si with
        weather := getWeatherString weather
        trackTemp := trackTemp
        airTemp := airTemp
        sessionType := getSessionTypeString sessionType
        totalLaps := totalLaps
        trackId := trackId }

/-- Mutable globals of telemetry.js touched by the message handler. -/
structure TelemetryState where
  drivers : Drivers
  sessionInfo : SessionInfo
  packetCount : Nat
  errorCount : Nat

/-- Initial global state of telemetry.js. -/
def initTelemetryState : TelemetryState :=
  { drivers := fun _ => none, sessionInfo := initSessionInfo,
    packetCount := 0, errorCount := 0 }

/-- Control-flow outcome of one run of the telemetry.js message
handler, one constructor per return point: the length check, the
header-null check, the packet-format check, the dispatch switch
(reached with the packet id), and the inner catch block. -/
inductive HandleOutcome where
  | tooShort : HandleOutcome
  | badHeader : HandleOutcome
  | badFormat : HandleOutcome
  | dispatched : Nat → HandleOutcome
  | parseFailed : Nat → HandleOutcome
deriving DecidableEq

/-- telemetry.js `server.on('message')` handler: counts the packet,
rejects buffers under 29 bytes and null headers (incrementing
`errorCount`), rejects packet formats other than 2025/2024
(incrementing `errorCount`), then dispatches on `packetId`.  A parser
exception would be caught and counted; the parsers are proved total so
the `parseFailed` branches are unreachable. -/
def handleMessage (b : Buf) (st : TelemetryState) :
    TelemetryState × HandleOutcome :=
  let st := { st with packetCount := st.packetCount + 1 }
  if b.size < 29 then
    ({ st with errorCount := st.errorCount + 1 }, .tooShort)
  else
    match parseHeader b with
    | none => ({ st with errorCount := st.errorCount + 1 }, .badHeader)
    | some h =>
      if h.packetFormat ≠ 2025 ∧ h.packetFormat ≠ 2024 then
        ({ st with errorCount := st.errorCount + 1 }, .badFormat)
      else if h.packetId = 4 then
        ({ st with drivers := parseParticipants b st.drivers },
          .dispatched 4)
      else if h.packetId = 1 then
        match parseSession b st.sessionInfo with
        | some si => ({ st with sessionInfo := si }, .dispatched 1)
        | none =>
          ({ st with errorCount := st.errorCount + 1 }, .parseFailed 1)
      else if h.packetId = 2 then
        match parseLapData b st.drivers with
        | some d => ({ st with drivers := d }, .dispatched 2)
        | none =>
          ({ st with errorCount := st.errorCount + 1 }, .parseFailed 2)
      else if h.packetId = 6 then
        match parseCarTelemetry b st.drivers with
        | some d => ({ st with drivers := d }, .dispatched 6)
        | none =>
          ({ st with errorCount := st.errorCount + 1 }, .parseFailed 6)
      else if h.packetId = 7 then
        match parseCarStatus b st.drivers with
        | some d => ({ st with drivers := d }, .dispatched 7)
        | none =>
          ({ st with errorCount := st.errorCount + 1 }, .parseFailed 7)
      else (st, .dispatched h.packetId)

/-- Outcome of one run of test-connection.js `_handleMessage`
(F1UDPService): an invalid header emits `invalidPacket` and stops;
otherwise the packet is counted, optionally forwarded, and the generic
and per-kind events are emitted.  `warned` records whether
`_parsePacketHeader` emitted the unsupported-format warning. -/
inductive ServiceOutcome where
  | invalidPacket : ServiceOutcome
  | processed : Bool → Bool → ServiceOutcome
deriving DecidableEq

/-- test-connection.js `_handleMessage`, reduced to header validation,
the format warning and forwarding.  `_parsePacketHeader` performs the
same 29-byte reads as `parseHeader` and additionally emits a warning
when `packetFormat` is not 2025, while still returning the header. -/
def serviceHandleMessage (forwardingEnabled : Bool) (b : Buf) :
    ServiceOutcome :=
  match parseHeader b with
  | none => .invalidPacket
  | some h => .processed (h.packetFormat != 2025) forwardingEnabled

/-- Recording states of f1-packages.js `RecordState`. -/
inductive RecState where
  | idle : RecState
  | recording : RecState
  | paused : RecState
  | finished : RecState
deriving DecidableEq

/-- One capture frame queued for writing by f1-packages.js: the 12-byte
metadata (payload length, arrival timestamp in ms) plus the raw
datagram bytes. -/
structure QueuedFrame where
  msgLen : Nat
  timestampMs : Nat
  payload : List Nat
deriving DecidableEq

/-- Mutable globals of the f1-packages.js capture recorder. -/
structure RecorderState where
  currentState : RecState
  currentTempFile : Option Nat
  streamOpen : Bool
  packetCount : Nat
  dataSize : Nat
  sessionStartTime : Nat
  lastPacketTime : Nat
  maxGap : Nat
  droppedPackets : Nat
  writeQueue : List QueuedFrame
deriving DecidableEq

/-- Initial recorder state (f1-packages.js module top level). -/
def initRecorderState : RecorderState :=
  { currentState := .idle, currentTempFile := none, streamOpen := false,
    packetCount := 0, dataSize := 0, sessionStartTime := 0,
    lastPacketTime := 0, maxGap := 0, droppedPackets := 0,
    writeQueue := [] }

/-- f1-packages.js `startNewRecording`: refused (console warning, state
untouched) only while already Recording; from Idle, Paused or Finished
it ends any previous stream, resets all statistics, creates a fresh
temp file (`fresh` stands for the generated file name) and enters
Recording.  The returned flag is true when the error path was taken. -/
def startNewRecording (fresh : Nat) (s : RecorderState) :
    RecorderState × Bool :=
  if s.currentState = .recording then (s, true)
  else
    ({ currentState := .recording, currentTempFile := some fresh,
       streamOpen := true, packetCount := 0, dataSize := 0,
       sessionStartTime := 0, lastPacketTime := 0, maxGap := 0,
       droppedPackets := 0, writeQueue := [] }, false)

/-- f1-packages.js `finishRecording`: refused unless Recording or
Paused; flushes the pending queue to the stream (the queue list itself
is not cleared by this function) and ends the stream. -/
def finishRecording (s : RecorderState) : RecorderState × Bool :=
  if s.currentState ≠ .recording ∧ s.currentState ≠ .paused then (s, true)
  else
    ({ s with currentState := .finished, streamOpen := false }, false)

/-- f1-packages.js `saveRecording`: refused unless the state is
Finished and a temp file exists; renames the temp file into permanent
storage and returns to Idle. -/
def saveRecording (s : RecorderState) : RecorderState × Bool :=
  if s.currentState ≠ .finished ∨ s.currentTempFile = none then (s, true)
  else
    ({ s with
        currentState := .idle
        currentTempFile := none
        streamOpen := false }, false)

/-- f1-packages.js `discardRecording`: refused only when no temp file
exists; otherwise ends the stream, deletes the file and returns to
Idle (legal from Recording, Paused and Finished). -/
def discardRecording (s : RecorderState) : RecorderState × Bool :=
  if s.currentTempFile = none then (s, true)
  else
    ({ s with
        currentState := .idle
        currentTempFile := none
        streamOpen := false }, false)

/-- f1-packages.js `togglePause`: Recording and Paused swap; any other
state is refused with a console warning. -/
def togglePause (s : RecorderState) : RecorderState × Bool :=
  if s.currentState = .recording then
    ({ s with currentState := .paused }, false)
  else if s.currentState = .paused then
    ({ s with currentState := .recording }, false)
  else (s, true)

/-- JS `buffer.slice(start, stop)`: clamps `stop` to the buffer length
and never errors, returning the available bytes. -/
def sliceBytes (b : Buf) (start stop : Nat) : List Nat :=
  (List.range (min stop b.size - start)).map (fun k => b.data (start + k))

/-- Result of one call of replay-data.js `sendNextPacket`: end of file
reached, an uncaught metadata-read exception (process crash), or a
datagram sent with the read timestamp and the next frame offset. -/
inductive ReplayStep where
  | complete : ReplayStep
  | crash : ReplayStep
  | sent : List Nat → Nat → Nat → ReplayStep
deriving DecidableEq

/-- replay-data.js `sendNextPacket`, one step: at or past end of file
the replay completes; a metadata read past end of file throws
(uncaught); otherwise the u32 length and u64 timestamp are read, the
payload is taken by `slice` — silently clamped to the available bytes
when the length field points past end of file — and sent. -/
def sendNextPacket (b : Buf) (offset : Nat) : ReplayStep :=
  if offset ≥ b.size then .complete
  else if b.size < offset + 4 then .crash
  else if b.size < offset + 12 then .crash
  else
    let packetSize := readU32 b offset
    let timestamp := readU64 b (offset + 4)
    .sent (sliceBytes b (offset + 12) (offset + 12 + packetSize))
      timestamp (offset + 12 + packetSize)

/-- Timing computation of replay-data.js `sendNextPacket` (lines
114-129).  It runs AFTER the current frame has already been sent and
schedules the NEXT call: on the first call (no stored `firstTimestamp`)
the just-sent frame's timestamp becomes the epoch and the next call is
scheduled immediately via `setImmediate`; on later calls the wait until
the next send is `replayStartTime + (timestamp - firstTimestamp)/speed
- now`, computed from the timestamp of the frame JUST SENT, and clamped
to an immediate send when not positive.  Timestamps and the speed
factor are taken in ℚ (exact arithmetic; dividing by the integer speed
factors 1..10 is exact in IEEE doubles for the halving facts proved
below). -/
def nextSendWait (replayStartTime now : ℚ) (firstTimestamp : Option ℚ)
    (timestamp speed : ℚ) : ℚ :=
  match firstTimestamp with
  | none => 0
  | some ts0 =>
    let originalDelay := timestamp - ts0
    let replayDelay := originalDelay / speed
    let targetTime := replayStartTime + replayDelay
    let waitTime := targetTime - now
    if 0 < waitTime then waitTime else 0

/-- One frame of a capture file as read back by the replay loop. -/
structure CaptureFrame where
  declaredLen : Nat
  timestampMs : Nat
  payload : List Nat
deriving DecidableEq

/-- Idealised send schedule of the tail of the replay loop, derived by
iterating `nextSendWait` exactly as `sendNextPacket` does (assuming
timers fire exactly on schedule and sends take no time, with
`replayStartTime` normalised to 0): the upcoming call sends its frame
`f` at delay `d` since replay start, then — because the wait is
computed after the send, from the timestamp of the frame just sent —
the following call is scheduled at `d` plus the wait computed from
`f`'s own timestamp. -/
def replaySendDelays (ts0 speed : ℚ) : List CaptureFrame → ℚ → List ℚ
  | [], _ => []
  | f :: rest, d =>
      d :: replaySendDelays ts0 speed rest
        (d + nextSendWait 0 d (some ts0) (f.timestampMs : ℚ) speed)

/-- Per-frame send delays, relative to replay start, of a whole
capture: the first call sends frame 1 immediately, records its
timestamp as the epoch and schedules the second call via `setImmediate`
(delay 0); from there the schedule follows `replaySendDelays`. -/
def sendDelays (frames : List CaptureFrame) (speed : ℚ) : List ℚ :=
  match frames with
  | [] => []
  | f1 :: rest => 0 :: replaySendDelays (f1.timestampMs : ℚ) speed rest 0

/-- Modelled from the spec: the repository decodes the 29-byte header
envelope but contains no re-encoder, so the encoding direction of the
round-trip property is taken from the spec's field table — each of the
twelve fields written little-endian at its fixed offset (`sessionTime`
as its f32 bit pattern).  `encodeHeaderByte h i` is byte `i` of the
encoded envelope. -/
def encodeHeaderByte (h : PacketHeader) (i : Nat) : Nat :=
  if i = 0 then h.packetFormat % 256
  else if i = 1 then h.packetFormat / 256 % 256
  else if i = 2 then h.gameYear % 256
  else if i = 3 then h.gameMajorVersion % 256
  else if i = 4 then h.gameMinorVersion % 256
  else if i = 5 then h.packetVersion % 256
  else if i = 6 then h.packetId % 256
  else if i < 15 then h.sessionUID / 256 ^ (i - 7) % 256
  else if i < 19 then h.sessionTime / 256 ^ (i - 15) % 256
  else if i < 23 then h.frameIdentifier / 256 ^ (i - 19) % 256
  else if i < 27 then h.overallFrameIdentifier / 256 ^ (i - 23) % 256
  else if i = 27 then h.playerCarIndex % 256
  else h.secondaryPlayerCarIndex % 256

/-- Recorder state used to refute the start-only-from-Idle claim: a
finished, unsaved recording. -/
def finishedRecorder : RecorderState :=
  { initRecorderState with
      currentState := .finished
      currentTempFile := some 0 }

/-- Empty buffer and empty drivers map used for closed
instantiations. -/
def emptyBuf : Buf := ⟨fun _ => 0, 0⟩

/-- Drivers map with no entries. -/
def emptyDrivers : Drivers := fun _ => none

/-- Concrete 1352-byte Car Telemetry datagram of the C4 scenario: a
valid 2025-format header with packet id 6, the 16-bit little-endian
value 287 at offset 29 (bytes 31, 1), and a given gear byte at offset
44 (offset 15 within car record 0); all other bytes zero. -/
def c4Buf (gearByte : Nat) : Buf :=
  ⟨fun i => if i = 0 then 233 else if i = 1 then 7 else
    if i = 6 then 6 else if i = 29 then 31 else if i = 30 then 1 else
    if i = 44 then gearByte else 0, 1352⟩

/-- Drivers table in which car slot 0 has an (empty) entry, as created
by a preceding Participants packet; the telemetry decoder only writes
slots that already exist. -/
def slot0Drivers : Drivers :=
  fun i => if i = 0 then some {} else none

/-- A successful header decode implies the buffer held at least the
29-byte envelope. -/
theorem parseHeader_isSome_size (b : Buf) (h : PacketHeader)
    (hh : parseHeader b = some h) : 29 ≤ b.size := by
  unfold parseHeader at hh
  by_cases hs : b.size < 29
  · simp [hs] at hh
  · omega

/-- C7 counterexample: the claim maps every out-of-range flag code to
the "Unknown" sentinel, but `getFlagString` falls back to "None": at
input 7 it returns "None", which is not "Unknown". -/
theorem flag_out_of_range_is_none :
    getFlagString 7 = "None" ∧ getFlagString 7 ≠ "Unknown" := by
  constructor
  · rfl
  · decide

/-- C7 (amended): the weather, session-type, tyre-compound, pit-status,
driver-status and ERS-mode lookups map every out-of-range code to the
"Unknown" sentinel; the flag-state lookup instead falls back to
"None" for out-of-range codes. -/
theorem enum_lookup_fallbacks :
    (∀ w, 6 ≤ w → getWeatherString w = "Unknown") ∧
    (∀ t, 18 ≤ t → getSessionTypeString t = "Unknown") ∧
    (∀ c, c < 7 ∨ 21 < c → getTyreCompoundString c = "Unknown") ∧
    (∀ s, 3 ≤ s → getPitStatusString s = "Unknown") ∧
    (∀ s, 5 ≤ s → getDriverStatusString s = "Unknown") ∧
    (∀ m, 4 ≤ m → getERSModeString m = "Unknown") ∧
    (∀ f : Int, f < -1 ∨ 4 < f → getFlagString f = "None") := by
  refine ⟨?_, ?_, ?_, ?_, ?_, ?_, ?_⟩
  · intro w hw
    unfold getWeatherString
    rw [List.getD_eq_default]
    simp only [List.length_cons, List.length_nil]
    omega
  · intro t ht
    unfold getSessionTypeString
    rw [List.getD_eq_default]
    simp only [List.length_cons, List.length_nil]
    omega
  · intro c hc
    rcases hc with h | h
    · interval_cases c <;> rfl
    · unfold getTyreCompoundString
      repeat rw [if_neg (by omega)]
  · intro s hs
    unfold getPitStatusString
    rw [List.getD_eq_default]
    simp only [List.length_cons, List.length_nil]
    omega
  · intro s hs
    unfold getDriverStatusString
    rw [List.getD_eq_default]
    simp only [List.length_cons, List.length_nil]
    omega
  · intro m hm
    unfold getERSModeString
    rw [List.getD_eq_default]
    simp only [List.length_cons, List.length_nil]
    omega
  · intro f hf
    unfold getFlagString
    rcases hf with h | h <;>
      repeat rw [if_neg (by omega)]

/-- Closed instantiation of the C7 theorem at concrete codes. -/
theorem enum_lookup_fallbacks_witness :
    getWeatherString 6 = "Unknown" ∧ getSessionTypeString 18 = "Unknown" ∧
    getTyreCompoundString 22 = "Unknown" ∧ getPitStatusString 3 = "Unknown" ∧
    getDriverStatusString 5 = "Unknown" ∧ getERSModeString 4 = "Unknown" ∧
    getFlagString 5 = "None" :=
  ⟨enum_lookup_fallbacks.1 6 (by omega),
   enum_lookup_fallbacks.2.1 18 (by omega),
   enum_lookup_fallbacks.2.2.1 22 (Or.inr (by omega)),
   enum_lookup_fallbacks.2.2.2.1 3 (by omega),
   enum_lookup_fallbacks.2.2.2.2.1 5 (by omega),
   enum_lookup_fallbacks.2.2.2.2.2.1 4 (by omega),
   enum_lookup_fallbacks.2.2.2.2.2.2 5 (Or.inr (by omega))⟩

/-- C2 counterexample: the claim allows `start` to change state only
from Idle, but `startNewRecording` is refused only while Recording:
started from the Finished state it changes the state to Recording. -/
theorem start_from_finished_changes_state :
    (startNewRecording 1 finishedRecorder).1.currentState =
      RecState.recording ∧
    finishedRecorder.currentState = RecState.finished ∧
    finishedRecorder.currentState ≠ RecState.idle ∧
    (startNewRecording 1 finishedRecorder).2 = false := by
  refine ⟨rfl, rfl, by decide, rfl⟩

/-- C2 (amended): `save` changes the recorder state only from Finished
(and with a temp file present), and is otherwise refused with an error
and no state change; `start` is refused (error, no state change) only
while already Recording — from Idle, Paused or Finished it begins a new
recording; `finish`, `pause` and `discard` likewise leave the whole
state unchanged and report an error on their illegal inputs, and no
transition throws. -/
theorem recorder_transition_guards :
    (∀ s, (saveRecording s).1 ≠ s → s.currentState = RecState.finished) ∧
    (∀ s, s.currentState ≠ RecState.finished ∨ s.currentTempFile = none →
      saveRecording s = (s, true)) ∧
    (∀ s, s.currentState = RecState.finished →
      s.currentTempFile ≠ none →
      (saveRecording s).1.currentState = RecState.idle ∧
        (saveRecording s).2 = false) ∧
    (∀ f s, s.currentState = RecState.recording →
      startNewRecording f s = (s, true)) ∧
    (∀ f s, s.currentState ≠ RecState.recording →
      (startNewRecording f s).1.currentState = RecState.recording ∧
        (startNewRecording f s).2 = false) ∧
    (∀ s, s.currentState ≠ RecState.recording →
      s.currentState ≠ RecState.paused → finishRecording s = (s, true)) ∧
    (∀ s, s.currentState = RecState.idle ∨
      s.currentState = RecState.finished → togglePause s = (s, true)) ∧
    (∀ s, s.currentTempFile = none → discardRecording s = (s, true)) := by
  refine ⟨?_, ?_, ?_, ?_, ?_, ?_, ?_, ?_⟩
  · intro s hne
    by_cases hc : s.currentState = RecState.finished
    · exact hc
    · exfalso
      apply hne
      unfold saveRecording
      rw [if_pos (Or.inl hc)]
  · intro s hcond
    unfold saveRecording
    rw [if_pos hcond]
  · intro s hst hfile
    unfold saveRecording
    rw [if_neg (by simp [hst, hfile])]
    exact ⟨rfl, rfl⟩
  · intro f s hrec
    unfold startNewRecording
    rw [if_pos hrec]
  · intro f s hrec
    unfold startNewRecording
    rw [if_neg hrec]
    exact ⟨rfl, rfl⟩
  · intro s h1 h2
    unfold finishRecording
    rw [if_pos ⟨h1, h2⟩]
  · intro s hcase
    unfold togglePause
    rcases hcase with h | h <;> rw [h] <;> rfl
  · intro s hfile
    unfold discardRecording
    rw [if_pos hfile]

/-- Closed instantiation of the C2 theorem: save refused from Idle,
start refused while Recording, save succeeding from Finished. -/
theorem recorder_transition_guards_witness :
    saveRecording initRecorderState = (initRecorderState, true) ∧
    startNewRecording 1 { initRecorderState with
      currentState := RecState.recording } =
      ({ initRecorderState with currentState := RecState.recording }, true) ∧
    (saveRecording finishedRecorder).1.currentState = RecState.idle :=
  ⟨recorder_transition_guards.2.1 initRecorderState (Or.inl (by decide)),
   recorder_transition_guards.2.2.2.1 1 _ rfl,
   (recorder_transition_guards.2.2.1 finishedRecorder rfl (by decide)).1⟩

/-- The telemetry loop body never throws once the 60-byte record fits:
its single unguarded read (`readInt8` for the gear) is in bounds. -/
theorem telemetryStep_eq_some (b : Buf) (offset : Nat) (st : Drivers)
    (i : Nat) (h : offset + 60 ≤ b.size) :
    ∃ st', telemetryStep b offset st i = some st' := by
  unfold telemetryStep
  rw [readInt8?, if_pos (by omega)]
  exact ⟨_, rfl⟩

/-- The lap-data loop body never throws once the 50-byte record fits:
both unguarded `readUInt32LE` reads are in bounds. -/
theorem lapDataStep_eq_some (b : Buf) (offset : Nat) (st : Drivers)
    (i : Nat) (h : offset + 50 ≤ b.size) :
    ∃ st', lapDataStep b offset st i = some st' := by
  unfold lapDataStep
  rw [readUInt32LE?, if_pos (by omega), readUInt32LE?, if_pos (by omega)]
  exact ⟨_, rfl⟩

/-- The car-status loop body never throws once the 55-byte record fits:
its single unguarded read (`readInt8` for the FIA flags) is in
bounds. -/
theorem carStatusStep_eq_some (b : Buf) (offset : Nat) (st : Drivers)
    (i : Nat) (h : offset + 55 ≤ b.size) :
    ∃ st', carStatusStep b offset st i = some st' := by
  unfold carStatusStep
  rw [readInt8?, if_pos (by omega)]
  exact ⟨_, rfl⟩

/-- The telemetry per-car loop always terminates normally (no record
iteration can throw). -/
theorem telemetryLoop_isSome (b : Buf) :
    ∀ fuel i offset st, (telemetryLoop b fuel i offset st).isSome := by
  intro fuel
  induction fuel with
  | zero =>
    intro i offset st
    rfl
  | succ n ih =>
    intro i offset st
    rw [telemetryLoop]
    by_cases h1 : i < 22
    · rw [if_pos h1]
      by_cases h2 : offset + 60 > b.size
      · rw [if_pos h2]
        rfl
      · obtain ⟨st', hst⟩ := telemetryStep_eq_some b offset st i (by omega)
        rw [if_neg h2]
        simp only [bind, hst, Option.some_bind]
        exact ih (i + 1) (offset + 60) st'
    · rw [if_neg h1]
      rfl

/-- The lap-data per-car loop always terminates normally. -/
theorem lapDataLoop_isSome (b : Buf) :
    ∀ fuel i offset st, (lapDataLoop b fuel i offset st).isSome := by
  intro fuel
  induction fuel with
  | zero =>
    intro i offset st
    rfl
  | succ n ih =>
    intro i offset st
    rw [lapDataLoop]
    by_cases h1 : i < 22
    · rw [if_pos h1]
      by_cases h2 : offset + 50 > b.size
      · rw [if_pos h2]
        rfl
      · obtain ⟨st', hst⟩ := lapDataStep_eq_some b offset st i (by omega)
        rw [if_neg h2]
        simp only [bind, hst, Option.some_bind]
        exact ih (i + 1) (offset + 50) st'
    · rw [if_neg h1]
      rfl

/-- The car-status per-car loop always terminates normally. -/
theorem carStatusLoop_isSome (b : Buf) :
    ∀ fuel i offset st, (carStatusLoop b fuel i offset st).isSome := by
  intro fuel
  induction fuel with
  | zero =>
    intro i offset st
    rfl
  | succ n ih =>
    intro i offset st
    rw [carStatusLoop]
    by_cases h1 : i < 22
    · rw [if_pos h1]
      by_cases h2 : offset + 55 > b.size
      · rw [if_pos h2]
        rfl
      · obtain ⟨st', hst⟩ := carStatusStep_eq_some b offset st i (by omega)
        rw [if_neg h2]
        simp only [bind, hst, Option.some_bind]
        exact ih (i + 1) (offset + 55) st'
    · rw [if_neg h1]
      rfl

/-- In-place slot update never materialises a missing entry. -/
theorem updateDriver_none (st : Drivers) (i k : Nat)
    (f : DriverEntry → DriverEntry) (h : st k = none) :
    updateDriver st i f k = none := by
  unfold updateDriver
  by_cases hk : k = i
  · subst hk
    rw [h]
    simp
  · rw [if_neg hk, h]

/-- The telemetry loop body writes slot `i` only when it is present. -/
theorem telemetryStep_none (b : Buf) (offset : Nat) (st st' : Drivers)
    (i k : Nat) (hstep : telemetryStep b offset st i = some st')
    (h : st k = none) : st' k = none := by
  unfold telemetryStep at hstep
  cases hg : readInt8? b (offset + 15) with
  | none => rw [hg] at hstep; simp [bind] at hstep
  | some g =>
    rw [hg] at hstep
    simp only [bind, Option.some_bind, pure, Option.some.injEq] at hstep
    subst hstep
    by_cases hs : (st i).isSome
    · rw [if_pos hs]
      exact updateDriver_none st i k _ h
    · rw [if_neg hs]
      exact h

/-- The lap-data loop body writes slot `i` only when it is present. -/
theorem lapDataStep_none (b : Buf) (offset : Nat) (st st' : Drivers)
    (i k : Nat) (hstep : lapDataStep b offset st i = some st')
    (h : st k = none) : st' k = none := by
  unfold lapDataStep at hstep
  cases h1 : readUInt32LE? b offset with
  | none => rw [h1] at hstep; simp [bind] at hstep
  | some v1 =>
    cases h2 : readUInt32LE? b (offset + 4) with
    | none => rw [h1, h2] at hstep; simp [bind] at hstep
    | some v2 =>
      rw [h1, h2] at hstep
      simp only [bind, Option.some_bind, pure, Option.some.injEq] at hstep
      subst hstep
      by_cases hs : (st i).isSome
      · rw [if_pos hs]
        exact updateDriver_none st i k _ h
      · rw [if_neg hs]
        exact h

/-- The car-status loop body writes slot `i` only when it is present. -/
theorem carStatusStep_none (b : Buf) (offset : Nat) (st st' : Drivers)
    (i k : Nat) (hstep : carStatusStep b offset st i = some st')
    (h : st k = none) : st' k = none := by
  unfold carStatusStep at hstep
  cases hg : readInt8? b (offset + 28) with
  | none => rw [hg] at hstep; simp [bind] at hstep
  | some g =>
    rw [hg] at hstep
    simp only [bind, Option.some_bind, pure, Option.some.injEq] at hstep
    subst hstep
    by_cases hs : (st i).isSome
    · rw [if_pos hs]
      exact updateDriver_none st i k _ h
    · rw [if_neg hs]
      exact h

/-- The telemetry per-car loop preserves missing slots. -/
theorem telemetryLoop_none (b : Buf) :
    ∀ fuel i offset st st' k,
      telemetryLoop b fuel i offset st = some st' → st k = none →
      st' k = none := by
  intro fuel
  induction fuel with
  | zero =>
    intro i offset st st' k hloop h
    cases hloop
    exact h
  | succ n ih =>
    intro i offset st st' k hloop h
    rw [telemetryLoop] at hloop
    by_cases h1 : i < 22
    · rw [if_pos h1] at hloop
      by_cases h2 : offset + 60 > b.size
      · rw [if_pos h2] at hloop
        cases hloop
        exact h
      · rw [if_neg h2] at hloop
        obtain ⟨st1, hst1⟩ := telemetryStep_eq_some b offset st i (by omega)
        rw [hst1] at hloop
        simp only [bind, Option.some_bind] at hloop
        exact ih (i + 1) (offset + 60) st1 st' k hloop
          (telemetryStep_none b offset st st1 i k hst1 h)
    · rw [if_neg h1] at hloop
      cases hloop
      exact h

/-- The lap-data per-car loop preserves missing slots. -/
theorem lapDataLoop_none (b : Buf) :
    ∀ fuel i offset st st' k,
      lapDataLoop b fuel i offset st = some st' → st k = none →
      st' k = none := by
  intro fuel
  induction fuel with
  | zero =>
    intro i offset st st' k hloop h
    cases hloop
    exact h
  | succ n ih =>
    intro i offset st st' k hloop h
    rw [lapDataLoop] at hloop
    by_cases h1 : i < 22
    · rw [if_pos h1] at hloop
      by_cases h2 : offset + 50 > b.size
      · rw [if_pos h2] at hloop
        cases hloop
        exact h
      · rw [if_neg h2] at hloop
        obtain ⟨st1, hst1⟩ := lapDataStep_eq_some b offset st i (by omega)
        rw [hst1] at hloop
        simp only [bind, Option.some_bind] at hloop
        exact ih (i + 1) (offset + 50) st1 st' k hloop
          (lapDataStep_none b offset st st1 i k hst1 h)
    · rw [if_neg h1] at hloop
      cases hloop
      exact h

/-- The car-status per-car loop preserves missing slots. -/
theorem carStatusLoop_none (b : Buf) :
    ∀ fuel i offset st st' k,
      carStatusLoop b fuel i offset st = some st' → st k = none →
      st' k = none := by
  intro fuel
  induction fuel with
  | zero =>
    intro i offset st st' k hloop h
    cases hloop
    exact h
  | succ n ih =>
    intro i offset st st' k hloop h
    rw [carStatusLoop] at hloop
    by_cases h1 : i < 22
    · rw [if_pos h1] at hloop
      by_cases h2 : offset + 55 > b.size
      · rw [if_pos h2] at hloop
        cases hloop
        exact h
      · rw [if_neg h2] at hloop
        obtain ⟨st1, hst1⟩ := carStatusStep_eq_some b offset st i (by omega)
        rw [hst1] at hloop
        simp only [bind, Option.some_bind] at hloop
        exact ih (i + 1) (offset + 55) st1 st' k hloop
          (carStatusStep_none b offset st st1 i k hst1 h)
    · rw [if_neg h1] at hloop
      cases hloop
      exact h

/-- C5: the Car Telemetry, Lap Data and Car Status decoders write a
decoded sub-record for a car slot only when the slot already has an
entry in the drivers table; a slot with no entry stays absent
(the decoded values for it are discarded), entries being created only
by the Participants decoder. -/
theorem subrecord_write_requires_existing_entry :
    (∀ b st st' k, parseCarTelemetry b st = some st' → st k = none →
      st' k = none) ∧
    (∀ b st st' k, parseLapData b st = some st' → st k = none →
      st' k = none) ∧
    (∀ b st st' k, parseCarStatus b st = some st' → st k = none →
      st' k = none) := by
  refine ⟨?_, ?_, ?_⟩
  · intro b st st' k hp h
    unfold parseCarTelemetry at hp
    cases hh : parseHeader b with
    | none =>
      rw [hh] at hp
      cases hp
      exact h
    | some hdr =>
      rw [hh] at hp
      by_cases hs : b.size < 1352
      · rw [if_pos hs] at hp
        cases hp
        exact h
      · rw [if_neg hs] at hp
        exact telemetryLoop_none b 22 0 29 st st' k hp h
  · intro b st st' k hp h
    unfold parseLapData at hp
    cases hh : parseHeader b with
    | none =>
      rw [hh] at hp
      cases hp
      exact h
    | some hdr =>
      rw [hh] at hp
      by_cases hs : b.size < 1131
      · rw [if_pos hs] at hp
        cases hp
        exact h
      · rw [if_neg hs] at hp
        exact lapDataLoop_none b 22 0 29 st st' k hp h
  · intro b st st' k hp h
    unfold parseCarStatus at hp
    cases hh : parseHeader b with
    | none =>
      rw [hh] at hp
      cases hp
      exact h
    | some hdr =>
      rw [hh] at hp
      by_cases hs : b.size < 1239
      · rw [if_pos hs] at hp
        cases hp
        exact h
      · rw [if_neg hs] at hp
        exact carStatusLoop_none b 22 0 29 st st' k hp h

/-- Closed instantiation of the C5 theorem: slot 3 stays absent through
each of the three decoders on a concrete datagram. -/
theorem subrecord_write_requires_existing_entry_witness :
    emptyDrivers 3 = none ∧
    ((parseCarTelemetry emptyBuf emptyDrivers).getD emptyDrivers) 3 =
      none := by
  have h1 : parseCarTelemetry emptyBuf emptyDrivers = some emptyDrivers :=
    rfl
  have h2 := subrecord_write_requires_existing_entry.1 emptyBuf
    emptyDrivers emptyDrivers 3 h1 rfl
  rw [h1]
  exact ⟨rfl, h2⟩

/-- C6: each bounds-checked accessor substitutes its documented default
(0 for numbers, the zero pattern for floats, the empty string) exactly
when the requested read would exceed the buffer, and on any buffer that
passed the minimum-size check (indeed on any buffer at all) the body
decoders never abort: every unguarded read they contain is kept in
bounds by the per-record stride checks, so a corrupt field can degrade
only itself, never the record or the packet. -/
theorem safe_reads_default_and_decoders_never_abort :
    (∀ b o, b.size ≤ o → safeReadUInt8 b o = 0) ∧
    (∀ b o, b.size < o + 2 → safeReadUInt16LE b o = 0) ∧
    (∀ b o, b.size < o + 4 → safeReadFloatLE b o = 0) ∧
    (∀ b o l, b.size < o + l → safeReadStringBytes b o l = []) ∧
    (∀ b st, (parseCarTelemetry b st).isSome ∧
      (parseLapData b st).isSome ∧ (parseCarStatus b st).isSome) ∧
    (∀ b si, (parseSession b si).isSome) := by
  refine ⟨?_, ?_, ?_, ?_, ?_, ?_⟩
  · intro b o h
    unfold safeReadUInt8
    rw [if_pos h]
  · intro b o h
    unfold safeReadUInt16LE
    rw [if_pos (by omega)]
  · intro b o h
    unfold safeReadFloatLE
    rw [if_pos (by omega)]
  · intro b o l h
    unfold safeReadStringBytes
    rw [if_pos (by omega)]
  · intro b st
    refine ⟨?_, ?_, ?_⟩
    · unfold parseCarTelemetry
      cases hh : parseHeader b with
      | none => rfl
      | some hdr =>
        by_cases hs : b.size < 1352
        · rw [if_pos hs]
          rfl
        · rw [if_neg hs]
          exact telemetryLoop_isSome b 22 0 29 st
    · unfold parseLapData
      cases hh : parseHeader b with
      | none => rfl
      | some hdr =>
        by_cases hs : b.size < 1131
        · rw [if_pos hs]
          rfl
        · rw [if_neg hs]
          exact lapDataLoop_isSome b 22 0 29 st
    · unfold parseCarStatus
      cases hh : parseHeader b with
      | none => rfl
      | some hdr =>
        by_cases hs : b.size < 1239
        · rw [if_pos hs]
          rfl
        · rw [if_neg hs]
          exact carStatusLoop_isSome b 22 0 29 st
  · intro b si
    unfold parseSession
    cases hh : parseHeader b with
    | none => rfl
    | some hdr =>
      by_cases hs : b.size < 644
      · rw [if_pos hs]
        rfl
      · rw [if_neg hs]
        have h29 : 29 ≤ b.size := parseHeader_isSome_size b hdr hh
        rw [readInt8?, if_pos (by omega), readInt8?, if_pos (by omega),
          readInt8?, if_pos (by omega)]
        rfl

/-- Closed instantiation of the C6 theorem: out-of-range reads on a
concrete 30-byte buffer yield the defaults, and the decoders run to
completion on it. -/
theorem safe_reads_default_witness :
    safeReadUInt8 ⟨fun _ => 7, 30⟩ 30 = 0 ∧
    safeReadUInt16LE ⟨fun _ => 7, 30⟩ 29 = 0 ∧
    safeReadFloatLE ⟨fun _ => 7, 30⟩ 27 = 0 ∧
    safeReadStringBytes ⟨fun _ => 7, 30⟩ 20 48 = [] ∧
    (parseCarTelemetry ⟨fun _ => 7, 30⟩ emptyDrivers).isSome ∧
    (parseSession ⟨fun _ => 7, 30⟩ initSessionInfo).isSome :=
  ⟨safe_reads_default_and_decoders_never_abort.1 _ 30 (by decide),
   safe_reads_default_and_decoders_never_abort.2.1 _ 29 (by decide),
   safe_reads_default_and_decoders_never_abort.2.2.1 _ 27 (by decide),
   safe_reads_default_and_decoders_never_abort.2.2.2.1 _ 20 48 (by decide),
   (safe_reads_default_and_decoders_never_abort.2.2.2.2.1 _
     emptyDrivers).1,
   safe_reads_default_and_decoders_never_abort.2.2.2.2.2 _
     initSessionInfo⟩

/-- Below the 1352-byte minimum the Car Telemetry decoder returns
without touching the drivers map. -/
theorem parseCarTelemetry_short (b : Buf) (st : Drivers)
    (h : b.size < 1352) : parseCarTelemetry b st = some st := by
  unfold parseCarTelemetry
  cases hh : parseHeader b with
  | none => rfl
  | some hdr => rw [if_pos h]

/-- C1 (amended): a Car Telemetry datagram of at least 29 but fewer
than 1352 bytes performs zero writes to the Entity State Table — the
drivers map (and hence every sub-record) and the session info are
returned unchanged — but the malformed-packet counter `errorCount` is
not incremented for such a packet when its format is supported
(2025/2024): the truncated body is dropped silently; only an
unsupported format increments `errorCount` (once), before body
dispatch. -/
theorem carTelemetry_truncated_drops_silently (b : Buf)
    (st : TelemetryState) (h : PacketHeader)
    (hh : parseHeader b = some h) (hid : h.packetId = 6)
    (hlt : b.size < 1352) :
    (handleMessage b st).1.drivers = st.drivers ∧
    (handleMessage b st).1.sessionInfo = st.sessionInfo ∧
    (handleMessage b st).1.packetCount = st.packetCount + 1 ∧
    (handleMessage b st).1.errorCount = st.errorCount +
      (if h.packetFormat = 2025 ∨ h.packetFormat = 2024 then 0 else 1) := by
  have h29 : 29 ≤ b.size := parseHeader_isSome_size b h hh
  simp only [handleMessage, hh]
  rw [if_neg (show ¬b.size < 29 by omega), hid]
  by_cases hf : h.packetFormat ≠ 2025 ∧ h.packetFormat ≠ 2024
  · rw [if_pos hf]
    refine ⟨rfl, rfl, rfl, ?_⟩
    rw [if_neg (by tauto)]
  · rw [if_neg hf, if_neg (by omega), if_neg (by omega),
      if_neg (by omega), if_pos rfl,
      parseCarTelemetry_short b st.drivers hlt]
    refine ⟨rfl, rfl, rfl, ?_⟩
    rw [if_pos (by tauto)]
    rfl

/-- Closed instantiation of the C1 theorem: a 30-byte Car Telemetry
datagram with a valid 2025-format header leaves drivers, session info
and the error counter unchanged. -/
theorem carTelemetry_truncated_drops_silently_witness :
    (handleMessage ⟨fun i => if i = 0 then 233 else if i = 1 then 7 else
        if i = 6 then 6 else 0, 30⟩ initTelemetryState).1.errorCount =
      initTelemetryState.errorCount + 0 := by
  have h := carTelemetry_truncated_drops_silently
    ⟨fun i => if i = 0 then 233 else if i = 1 then 7 else
      if i = 6 then 6 else 0, 30⟩ initTelemetryState
    { packetFormat := 2025, gameYear := 0, gameMajorVersion := 0,
      gameMinorVersion := 0, packetVersion := 0, packetId := 6,
      sessionUID := 0, sessionTime := 0, frameIdentifier := 0,
      overallFrameIdentifier := 0, playerCarIndex := 0,
      secondaryPlayerCarIndex := 0 }
    (by decide) rfl (by decide)
  calc (handleMessage _ initTelemetryState).1.errorCount
      = initTelemetryState.errorCount +
        (if (2025 : Nat) = 2025 ∨ (2025 : Nat) = 2024 then 0 else 1) :=
        h.2.2.2
    _ = initTelemetryState.errorCount + 0 := by rw [if_pos (Or.inl rfl)]

/-- C1 counterexample: the claim requires `errorCount` to be
incremented exactly once for every truncated Car Telemetry datagram,
but on a concrete 30-byte Car Telemetry datagram with a supported
format the handler leaves `errorCount` at 0, not 1 (and indeed writes
nothing to the drivers map). -/
theorem carTelemetry_truncated_no_error_count :
    (handleMessage ⟨fun i => if i = 0 then 233 else if i = 1 then 7 else
        if i = 6 then 6 else 0, 30⟩ initTelemetryState).1.errorCount ≠
      initTelemetryState.errorCount + 1 ∧
    (handleMessage ⟨fun i => if i = 0 then 233 else if i = 1 then 7 else
        if i = 6 then 6 else 0, 30⟩ initTelemetryState).1.drivers 0 =
      none := by
  constructor
  · decide
  · decide

/-- C3 (amended): header decoding itself never fails on the packet
format — any buffer of at least 29 bytes decodes (only a length below
29 makes header decoding fail) — and the event-service path
(test-connection.js) flags a non-2025 format with a warning while still
counting and forwarding the packet; the telemetry.js dispatcher,
however, rejects a packet whose format is neither 2025 nor 2024 before
body decoding, incrementing `errorCount` once and leaving the drivers
map and session info untouched. -/
theorem header_format_handling :
    (∀ b, 29 ≤ b.size → (parseHeader b).isSome) ∧
    (∀ b, b.size < 29 → parseHeader b = none) ∧
    (∀ fw b h, parseHeader b = some h →
      serviceHandleMessage fw b =
        ServiceOutcome.processed (h.packetFormat != 2025) fw) ∧
    (∀ b st h, parseHeader b = some h → h.packetFormat ≠ 2025 →
      h.packetFormat ≠ 2024 →
      (handleMessage b st).2 = HandleOutcome.badFormat ∧
      (handleMessage b st).1.errorCount = st.errorCount + 1 ∧
      (handleMessage b st).1.drivers = st.drivers ∧
      (handleMessage b st).1.sessionInfo = st.sessionInfo) := by
  refine ⟨?_, ?_, ?_, ?_⟩
  · intro b hb
    unfold parseHeader
    rw [if_neg (by omega)]
    rfl
  · intro b hb
    unfold parseHeader
    rw [if_pos hb]
  · intro fw b h hh
    unfold serviceHandleMessage
    rw [hh]
  · intro b st h hh h25 h24
    have h29 : 29 ≤ b.size := parseHeader_isSome_size b h hh
    simp only [handleMessage, hh]
    rw [if_neg (show ¬b.size < 29 by omega), if_pos ⟨h25, h24⟩]
    exact ⟨rfl, rfl, rfl, rfl⟩

/-- Closed instantiation of the C3 theorem on a 29-byte buffer with
format 2023: the header decodes, the event service warns and forwards,
the telemetry.js dispatcher rejects. -/
theorem header_format_handling_witness :
    (parseHeader ⟨fun i => if i = 0 then 231 else if i = 1 then 7 else
      if i = 6 then 6 else 0, 29⟩).isSome ∧
    serviceHandleMessage true ⟨fun i => if i = 0 then 231 else
        if i = 1 then 7 else if i = 6 then 6 else 0, 29⟩ =
      ServiceOutcome.processed true true ∧
    (handleMessage ⟨fun i => if i = 0 then 231 else if i = 1 then 7 else
        if i = 6 then 6 else 0, 29⟩ initTelemetryState).2 =
      HandleOutcome.badFormat := by
  refine ⟨header_format_handling.1 _ (by decide), ?_, ?_⟩
  · have h := header_format_handling.2.2.1 true
      ⟨fun i => if i = 0 then 231 else if i = 1 then 7 else
        if i = 6 then 6 else 0, 29⟩
      { packetFormat := 2023, gameYear := 0, gameMajorVersion := 0,
        gameMinorVersion := 0, packetVersion := 0, packetId := 6,
        sessionUID := 0, sessionTime := 0, frameIdentifier := 0,
        overallFrameIdentifier := 0, playerCarIndex := 0,
        secondaryPlayerCarIndex := 0 } (by decide)
    rw [h]
    rfl
  · exact (header_format_handling.2.2.2
      ⟨fun i => if i = 0 then 231 else if i = 1 then 7 else
        if i = 6 then 6 else 0, 29⟩ initTelemetryState
      { packetFormat := 2023, gameYear := 0, gameMajorVersion := 0,
        gameMinorVersion := 0, packetVersion := 0, packetId := 6,
        sessionUID := 0, sessionTime := 0, frameIdentifier := 0,
        overallFrameIdentifier := 0, playerCarIndex := 0,
        secondaryPlayerCarIndex := 0 } (by decide) (by decide)
      (by decide)).1

/-- C3 counterexample: the claim says a datagram with an unsupported
`packetFormat` is passed on to body decoding/forwarding, merely
flagged; on a concrete 29-byte Car Telemetry datagram with format 2023
the telemetry.js dispatcher instead stops at the format check (outcome
`badFormat`, a return before the body-decoder switch) and counts the
packet in `errorCount`. -/
theorem unsupported_format_rejected_by_dispatcher :
    (handleMessage ⟨fun i => if i = 0 then 231 else if i = 1 then 7 else
        if i = 6 then 6 else 0, 29⟩ initTelemetryState).2 ≠
      HandleOutcome.dispatched 6 ∧
    (handleMessage ⟨fun i => if i = 0 then 231 else if i = 1 then 7 else
        if i = 6 then 6 else 0, 29⟩ initTelemetryState).2 =
      HandleOutcome.badFormat ∧
    (handleMessage ⟨fun i => if i = 0 then 231 else if i = 1 then 7 else
        if i = 6 then 6 else 0, 29⟩ initTelemetryState).1.errorCount =
      1 := by
  refine ⟨by decide, by decide, by decide⟩

/-- C4: decoding the concrete 1352-byte Car Telemetry datagram updates
Entity State Table slot 0 with Telemetry.speed = 287 and
Telemetry.gear = 7; with gear byte -1 (0xFF) the stored gear is the
"R" display value and with gear byte 0 it is "N". -/
theorem telemetry_concrete_slot0 :
    ((parseCarTelemetry (c4Buf 7) slot0Drivers).bind (fun m =>
      (m 0).bind (fun d => d.telemetry.map (fun t => (t.speed, t.gear))))
      = some (287, GearDisplay.num 7)) ∧
    ((parseCarTelemetry (c4Buf 255) slot0Drivers).bind (fun m =>
      (m 0).bind (fun d => d.telemetry.map (fun t => t.gear)))
      = some GearDisplay.R) ∧
    ((parseCarTelemetry (c4Buf 0) slot0Drivers).bind (fun m =>
      (m 0).bind (fun d => d.telemetry.map (fun t => t.gear)))
      = some GearDisplay.N) := by
  refine ⟨by decide, by decide, by decide⟩

/-- The wait computed after sending a frame, added to the send delay of
that frame, targets that frame's own relative delay: the next call is
scheduled at `max d ((ts - ts0)/sp)` — the just-sent frame's target
delay, clamped so the schedule never moves backward. -/
theorem sendWait_clamp (d ts0 ts sp : ℚ) :
    d + nextSendWait 0 d (some ts0) ts sp = max d ((ts - ts0) / sp) := by
  show d + (if 0 < 0 + (ts - ts0) / sp - d
    then 0 + (ts - ts0) / sp - d else 0) = max d ((ts - ts0) / sp)
  by_cases h : 0 < 0 + (ts - ts0) / sp - d
  · rw [if_pos h, max_eq_right (by linarith)]
    ring
  · rw [if_neg h, max_eq_left (by linarith)]
    ring

/-- Doubling distributes over a maximum of rationals. -/
theorem two_mul_max (a b : ℚ) : 2 * max a b = max (2 * a) (2 * b) := by
  rcases le_total a b with h | h
  · rw [max_eq_right h, max_eq_right (by linarith)]
  · rw [max_eq_left h, max_eq_left (by linarith)]

/-- Running the schedule tail at speed 2 yields exactly half the delays
of the speed-1 tail (generalised over the pending delay). -/
theorem replaySendDelays_speed_two (ts0 : ℚ) :
    ∀ l d, replaySendDelays ts0 2 l d =
      (replaySendDelays ts0 1 l (2 * d)).map (fun x => x / 2) := by
  intro l
  induction l with
  | nil =>
    intro d
    rfl
  | cons f rest ih =>
    intro d
    rw [replaySendDelays, replaySendDelays, sendWait_clamp, sendWait_clamp]
    simp only [List.map_cons]
    rw [ih]
    have harg : 2 * max d (((f.timestampMs : ℚ) - ts0) / 2) =
        max (2 * d) (((f.timestampMs : ℚ) - ts0) / 1) := by
      rw [two_mul_max, div_one]
      congr 1
      ring
    rw [harg]
    congr 1
    ring

/-- C8 counterexample: the claim schedules every subsequent frame at
its own target delay `(frame.timestamp - epoch)/speed`, predicting
delays [0, 10, 20] for a capture with timestamps 0, 10, 20 at speed 1;
the program instead sends each frame before computing the wait from its
timestamp, so frame 2 goes out immediately and frame 3 at frame 2's
target delay: the actual schedule is [0, 0, 10]. -/
theorem replay_frame_sent_at_previous_target :
    sendDelays [⟨29, 0, []⟩, ⟨29, 10, []⟩, ⟨29, 20, []⟩] 1 =
      [0, 0, 10] ∧
    ¬ sendDelays [⟨29, 0, []⟩, ⟨29, 10, []⟩, ⟨29, 20, []⟩] 1 =
      [0, ((10 : ℚ) - 0) / 1, ((20 : ℚ) - 0) / 1] := by
  have h : sendDelays [⟨29, 0, []⟩, ⟨29, 10, []⟩, ⟨29, 20, []⟩] 1 =
      [0, 0, 10] := by
    simp only [sendDelays, replaySendDelays, sendWait_clamp]
    norm_num
  refine ⟨h, ?_⟩
  rw [h]
  intro hc
  norm_num at hc

/-- C8 (amended): the first frame is sent immediately and its stored
timestamp becomes the epoch; the second frame is also sent immediately
(the first call only records the epoch before scheduling via
`setImmediate`); because the wait is computed after each send from the
timestamp of the frame just sent, every later frame k+1 is scheduled so
that the wall-clock delay since replay start equals the PREVIOUS
frame's target delay `(frame_k.timestamp - epoch)/speedMultiplier`,
clamped to an immediate send when negative or overdue (the schedule
never moves backward); and at speed multiplier 2 every scheduled send
delay of the capture is exactly half that of the multiplier-1 run. -/
theorem replay_schedule_lags_one_frame :
    (∀ rs now ts sp : ℚ, nextSendWait rs now none ts sp = 0) ∧
    (∀ d ts0 ts sp : ℚ,
      d + nextSendWait 0 d (some ts0) ts sp = max d ((ts - ts0) / sp)) ∧
    (∀ (ts0 sp d : ℚ) (f : CaptureFrame) (rest : List CaptureFrame),
      replaySendDelays ts0 sp (f :: rest) d =
        d :: replaySendDelays ts0 sp rest
          (max d (((f.timestampMs : ℚ) - ts0) / sp))) ∧
    (∀ (f1 f2 : CaptureFrame) (rest : List CaptureFrame) (sp : ℚ),
      (sendDelays (f1 :: f2 :: rest) sp).take 2 = [0, 0]) ∧
    (∀ frames, sendDelays frames 2 =
      (sendDelays frames 1).map (fun x => x / 2)) := by
  refine ⟨?_, ?_, ?_, ?_, ?_⟩
  · intro rs now ts sp
    rfl
  · intro d ts0 ts sp
    exact sendWait_clamp d ts0 ts sp
  · intro ts0 sp d f rest
    rw [replaySendDelays, sendWait_clamp]
  · intro f1 f2 rest sp
    rw [sendDelays, replaySendDelays]
    rfl
  · intro frames
    cases frames with
    | nil => rfl
    | cons f1 rest =>
      rw [sendDelays, sendDelays]
      simp only [List.map_cons]
      rw [replaySendDelays_speed_two, mul_zero, zero_div]

/-- C9 (amended): a frame whose u32 length field points past the end
of the capture file is not fatal: `sendNextPacket` sends the payload
silently truncated by `slice` to the bytes available after the 12-byte
metadata, advances the offset past the end of file, and the next step
reports normal completion — no abort, no error, partial-frame data is
emitted. -/
theorem replay_overlong_frame_truncates (b : Buf) (offset : Nat)
    (h12 : offset + 12 ≤ b.size)
    (hover : b.size < offset + 12 + readU32 b offset) :
    sendNextPacket b offset =
      ReplayStep.sent
        (sliceBytes b (offset + 12) (offset + 12 + readU32 b offset))
        (readU64 b (offset + 4)) (offset + 12 + readU32 b offset) ∧
    (sliceBytes b (offset + 12) (offset + 12 + readU32 b offset)).length =
      b.size - (offset + 12) ∧
    sendNextPacket b (offset + 12 + readU32 b offset) =
      ReplayStep.complete := by
  refine ⟨?_, ?_, ?_⟩
  · unfold sendNextPacket
    rw [if_neg (by omega), if_neg (by omega), if_neg (by omega)]
  · unfold sliceBytes
    rw [List.length_map, List.length_range, min_eq_right (by omega)]
  · unfold sendNextPacket
    rw [if_pos (by omega)]

/-- Closed instantiation of the C9 theorem on a concrete 15-byte
capture whose single frame declares 100 payload bytes. -/
theorem replay_overlong_frame_truncates_witness :
    sendNextPacket ⟨fun i => if i = 0 then 100 else if i = 12 then 1 else
        if i = 13 then 2 else if i = 14 then 3 else 0, 15⟩ 0 =
      ReplayStep.sent
        (sliceBytes ⟨fun i => if i = 0 then 100 else if i = 12 then 1 else
          if i = 13 then 2 else if i = 14 then 3 else 0, 15⟩ 12 112)
        0 112 ∧
    (sliceBytes ⟨fun i => if i = 0 then 100 else if i = 12 then 1 else
      if i = 13 then 2 else if i = 14 then 3 else 0, 15⟩ 12 112).length =
      3 :=
  ⟨(replay_overlong_frame_truncates _ 0 (by decide) (by decide)).1,
   (replay_overlong_frame_truncates _ 0 (by decide) (by decide)).2.1⟩

/-- C9 counterexample: the claim makes a too-long length field fatal
(abort, error, nothing sent); on a concrete capture whose frame
declares 100 payload bytes with only 3 present, the replay instead
sends the 3-byte partial payload and the following step reports
successful completion. -/
theorem replay_overlong_frame_sends_partial :
    sendNextPacket ⟨fun i => if i = 0 then 100 else if i = 12 then 1 else
        if i = 13 then 2 else if i = 14 then 3 else 0, 15⟩ 0 =
      ReplayStep.sent [1, 2, 3] 0 112 ∧
    sendNextPacket ⟨fun i => if i = 0 then 100 else if i = 12 then 1 else
        if i = 13 then 2 else if i = 14 then 3 else 0, 15⟩ 112 =
      ReplayStep.complete := by
  refine ⟨by decide, by decide⟩

/-- C10: for every valid 29-byte header buffer, decoding the envelope
into its twelve fields with `parseHeader` and re-encoding each field
little-endian at its fixed offset reproduces every one of the original
29 bytes. -/
theorem header_decode_encode_roundtrip (b : Buf) (h : PacketHeader)
    (hsize : b.size = 29) (hbytes : ∀ i, i < 29 → b.data i < 256)
    (hdec : parseHeader b = some h) :
    ∀ i, i < 29 → encodeHeaderByte h i = b.data i := by
  have hb0 := hbytes 0 (by omega)
  have hb1 := hbytes 1 (by omega)
  have hb2 := hbytes 2 (by omega)
  have hb3 := hbytes 3 (by omega)
  have hb4 := hbytes 4 (by omega)
  have hb5 := hbytes 5 (by omega)
  have hb6 := hbytes 6 (by omega)
  have hb7 := hbytes 7 (by omega)
  have hb8 := hbytes 8 (by omega)
  have hb9 := hbytes 9 (by omega)
  have hb10 := hbytes 10 (by omega)
  have hb11 := hbytes 11 (by omega)
  have hb12 := hbytes 12 (by omega)
  have hb13 := hbytes 13 (by omega)
  have hb14 := hbytes 14 (by omega)
  have hb15 := hbytes 15 (by omega)
  have hb16 := hbytes 16 (by omega)
  have hb17 := hbytes 17 (by omega)
  have hb18 := hbytes 18 (by omega)
  have hb19 := hbytes 19 (by omega)
  have hb20 := hbytes 20 (by omega)
  have hb21 := hbytes 21 (by omega)
  have hb22 := hbytes 22 (by omega)
  have hb23 := hbytes 23 (by omega)
  have hb24 := hbytes 24 (by omega)
  have hb25 := hbytes 25 (by omega)
  have hb26 := hbytes 26 (by omega)
  have hb27 := hbytes 27 (by omega)
  have hb28 := hbytes 28 (by omega)
  unfold parseHeader at hdec
  rw [if_neg (by omega)] at hdec
  cases hdec
  intro i hi
  interval_cases i <;>
    simp [encodeHeaderByte, readU8, readU16, readU32, readU64] <;>
    omega

/-- Closed instantiation of the C10 theorem on the all-zero 29-byte
buffer. -/
theorem header_decode_encode_roundtrip_witness :
    encodeHeaderByte
      { packetFormat := 0, gameYear := 0, gameMajorVersion := 0,
        gameMinorVersion := 0, packetVersion := 0, packetId := 0,
        sessionUID := 0, sessionTime := 0, frameIdentifier := 0,
        overallFrameIdentifier := 0, playerCarIndex := 0,
        secondaryPlayerCarIndex := 0 } 17 =
      (⟨fun _ => 0, 29⟩ : Buf).data 17 :=
  header_decode_encode_roundtrip ⟨fun _ => 0, 29⟩
    { packetFormat := 0, gameYear := 0, gameMajorVersion := 0,
      gameMinorVersion := 0, packetVersion := 0, packetId := 0,
      sessionUID := 0, sessionTime := 0, frameIdentifier := 0,
      overallFrameIdentifier := 0, playerCarIndex := 0,
      secondaryPlayerCarIndex := 0 }
    rfl (fun i _ => Nat.succ_pos 255) (by decide) 17 (by omega)
